import Mathlib

/-!
Shallow embedding of the double-slit simulator core: the zustand store
(state, setters, particle lifecycle), the pure pattern functions, the
angular-dispersion sampler, the per-frame barrier-crossing branch of the
particle stepper, and the detection-screen accumulator.

JavaScript numbers are modelled as real numbers.  Every call to
`Math.random()` is passed in as an explicit real parameter, and
`Date.now()` as an explicit natural-number parameter, so that all
definitions are deterministic functions of their inputs.
-/

namespace DoubleSlit

/-- A 3D vector, modelling `THREE.Vector3`. -/
@[ext]
structure Vec3 where
  x : ℝ
  y : ℝ
  z : ℝ

namespace Vec3

/-- Componentwise scaling, modelling `Vector3.multiplyScalar`. -/
def scale (c : ℝ) (v : Vec3) : Vec3 := ⟨v.x * c, v.y * c, v.z * c⟩

/-- Squared euclidean length, modelling `Vector3.lengthSq`. -/
def normSq (v : Vec3) : ℝ := v.x * v.x + v.y * v.y + v.z * v.z

/-- Euclidean length, modelling `Vector3.length`. -/
noncomputable def length (v : Vec3) : ℝ := Real.sqrt v.normSq

/-- Modelling `Vector3.normalize`, which is
`divideScalar(this.length() || 1)`: a vector of length zero is left
unchanged (division by `1`), any other vector is divided by its length. -/
noncomputable def normalize (v : Vec3) : Vec3 :=
  if v.length = 0 then v else scale v.length⁻¹ v

/-- Modelling `Vector3.applyAxisAngle` with the unit axis `(0,1,0)`:
the right-handed rotation by angle `a` about the y-axis (the quaternion
built by `setFromAxisAngle` reduces to this rotation for a unit axis). -/
noncomputable def rotateY (a : ℝ) (v : Vec3) : Vec3 :=
  ⟨v.x * Real.cos a + v.z * Real.sin a, v.y, -(v.x * Real.sin a) + v.z * Real.cos a⟩

/-- Modelling `Vector3.applyAxisAngle` with the unit axis `(0,0,1)`:
the right-handed rotation by angle `a` about the z-axis. -/
noncomputable def rotateZ (a : ℝ) (v : Vec3) : Vec3 :=
  ⟨v.x * Real.cos a - v.y * Real.sin a, v.x * Real.sin a + v.y * Real.cos a, v.z⟩

end Vec3

/-- The particle kinds of the store (`ParticleType`). -/
inductive ParticleType where
  | electron
  | photon
  | neutrino
deriving DecidableEq

/-- Static physical properties of a particle kind (`ParticleProperties`). -/
structure ParticleProperties where
  mass : ℝ
  observationCollapseFactor : ℝ
  color : String
  emissiveColor : String
  defaultWavelength : ℝ

/-- The `PARTICLE_PROPERTIES` lookup table of the store. -/
noncomputable def PARTICLE_PROPERTIES : ParticleType → ParticleProperties
  | .electron => ⟨1.0, 1.0, "#64B5F6", "#64B5F6", 0.05⟩
  | .photon => ⟨0.0001, 1.0, "#FFEE58", "#FFEE58", 0.07⟩
  | .neutrino => ⟨0.00001, 0.05, "#A5D6A7", "#A5D6A7", 0.03⟩

/-- `gaussianRandom(mean, sigma)`: the Box-Muller transform.  The two
uniform draws `u1 = Math.random()` and `u2 = Math.random()` are explicit
parameters. -/
noncomputable def gaussianRandom (mean sigma u1 u2 : ℝ) : ℝ :=
  Real.sqrt (-2.0 * Real.log u1) * Real.cos (2.0 * Real.pi * u2) * sigma + mean

/-- `applyAngularDispersion(direction, dispersionFactor)`: two Gaussian
deviations scaled by `0.1`, applied as rotations about the y- and z-axes,
then normalized.  The four uniform draws behind the two `gaussianRandom`
calls are explicit parameters. -/
noncomputable def applyAngularDispersion (direction : Vec3) (dispersionFactor : ℝ)
    (u1 u2 u3 u4 : ℝ) : Vec3 :=
  let thetaDeviation := gaussianRandom 0 dispersionFactor u1 u2 * 0.1
  let phiDeviation := gaussianRandom 0 dispersionFactor u3 u4 * 0.1
  Vec3.normalize (Vec3.rotateZ phiDeviation (Vec3.rotateY thetaDeviation direction))

/-- `calculateSingleSlitPattern(y, screenDistance, slitWidth, wavelength)`:
the sinc-squared single-slit diffraction intensity, with the degenerate
case `|arg| < 0.0001` returning `1.0`. -/
noncomputable def calculateSingleSlitPattern
    (y screenDistance slitWidth wavelength : ℝ) : ℝ :=
  let angle := y / screenDistance
  let arg := Real.pi * slitWidth * angle / wavelength
  if |arg| < 0.0001 then 1.0
  else
    let sinc := Real.sin arg / arg
    sinc * sinc

/-- `calculateMultiSlitPattern(y, screenDistance, slitSeparation, slitCount,
wavelength)`: the two-slit base `cos^2(phase/2)` raised (real power) to the
sharpness exponent `1 + 0.5 * (slitCount - 2)`, times the single-slit
envelope with aperture `slitSeparation / 5`.  `Math.pow(cos, 2)` with the
exact exponent `2` is the square. -/
noncomputable def calculateMultiSlitPattern
    (y screenDistance slitSeparation slitCount wavelength : ℝ) : ℝ :=
  let angle := y / screenDistance
  let phase := 2 * Real.pi * slitSeparation * angle / wavelength
  let basicPattern := Real.cos (phase / 2) ^ (2 : ℕ)
  let sharpnessFactor := 1 + 0.5 * (slitCount - 2)
  let intensity := basicPattern ^ sharpnessFactor
  let diffractionEnvelope :=
    calculateSingleSlitPattern y screenDistance (slitSeparation / 5) wavelength
  intensity * diffractionEnvelope

/-- `applyObservationEffect(particleType, pattern)`: scales the pattern by
`(1 - collapseFactor * 0.2)` for neutrinos and by `(1 - collapseFactor)`
for every other kind. -/
noncomputable def applyObservationEffect (particleType : ParticleType) (pattern : ℝ) : ℝ :=
  let collapseFactor := (PARTICLE_PROPERTIES particleType).observationCollapseFactor
  if particleType = ParticleType.neutrino then pattern * (1 - collapseFactor * 0.2)
  else pattern * (1 - collapseFactor)

/-- A particle record of the store (`Particle`); `slitIndex` is the
optional field written by `registerSlitPass`. -/
structure Particle where
  id : ℕ
  position : Vec3
  velocity : Vec3
  type : ParticleType
  isActive : Bool
  slitIndex : Option ℕ

/-- The `ExperimentStats` record of the store. -/
structure ExperimentStats where
  particlesFired : ℕ
  particlesDetected : ℕ
  barrierCollisions : ℕ
  slitPassCount : List ℕ
  startTime : ℕ

/-- The fresh statistics object the store builds (in its initial state, in
`resetStats` and in `resetExperiment`); `now` stands for `Date.now()`. -/
def freshStats (now : ℕ) : ExperimentStats :=
  ⟨0, 0, 0, [0, 0, 0, 0, 0], now⟩

/-- The state held by the zustand store (`ExperimentState`). -/
structure ExperimentState where
  slitWidth : ℝ
  slitSeparation : ℝ
  slitCount : ℕ
  particleType : ParticleType
  particleSpeed : ℝ
  wavelength : ℝ
  isObserved : Bool
  dispersionFactor : ℝ
  baseDirection : Vec3
  particles : List Particle
  nextParticleId : ℕ
  isPaused : Bool
  isAutoMode : Bool
  particlesPerEmission : ℕ
  emissionSpeed : ℕ
  updateFrequency : ℕ
  stats : ExperimentStats

/-- The initial state passed to `create` by the store. -/
noncomputable def initialState : ExperimentState where
  slitWidth := 0.1
  slitSeparation := 0.2
  slitCount := 2
  particleType := ParticleType.electron
  particleSpeed := 1.0
  wavelength := 0.05
  isObserved := false
  dispersionFactor := 0.5
  baseDirection := ⟨1, 0, 0⟩
  particles := []
  nextParticleId := 1
  isPaused := false
  isAutoMode := false
  particlesPerEmission := 1
  emissionSpeed := 5
  updateFrequency := 5
  stats := freshStats 0

/-- Store action `setSlitWidth`. -/
def setSlitWidth (width : ℝ) (s : ExperimentState) : ExperimentState :=
  { s with slitWidth := width }

/-- Store action `setSlitSeparation`. -/
def setSlitSeparation (separation : ℝ) (s : ExperimentState) : ExperimentState :=
  { s with slitSeparation := separation }

/-- Store action `setSlitCount`: only the `slitCount` field is written. -/
def setSlitCount (count : ℕ) (s : ExperimentState) : ExperimentState :=
  { s with slitCount := count }

/-- Store action `setParticleType`: writes the type and overwrites the
wavelength with the kind's default wavelength from the property table. -/
noncomputable def setParticleType (t : ParticleType) (s : ExperimentState) : ExperimentState :=
  { s with particleType := t, wavelength := (PARTICLE_PROPERTIES t).defaultWavelength }

/-- Store action `setParticleSpeed`. -/
def setParticleSpeed (speed : ℝ) (s : ExperimentState) : ExperimentState :=
  { s with particleSpeed := speed }

/-- Store action `setWavelength`. -/
def setWavelength (wavelength : ℝ) (s : ExperimentState) : ExperimentState :=
  { s with wavelength := wavelength }

/-- Store action `setObserved`: forces `isObserved := false` when
`slitCount === 1`, otherwise stores the argument. -/
def setObserved (observed : Bool) (s : ExperimentState) : ExperimentState :=
  if s.slitCount = 1 then { s with isObserved := false }
  else { s with isObserved := observed }

/-- Store action `setIsPaused`. -/
def setIsPaused (paused : Bool) (s : ExperimentState) : ExperimentState :=
  { s with isPaused := paused }

/-- Store action `setIsAutoMode`. -/
def setIsAutoMode (auto : Bool) (s : ExperimentState) : ExperimentState :=
  { s with isAutoMode := auto }

/-- Store action `setParticlesPerEmission`. -/
def setParticlesPerEmission (count : ℕ) (s : ExperimentState) : ExperimentState :=
  { s with particlesPerEmission := count }

/-- Store action `setEmissionSpeed`. -/
def setEmissionSpeed (speed : ℕ) (s : ExperimentState) : ExperimentState :=
  { s with emissionSpeed := speed }

/-- Store action `setUpdateFrequency`. -/
def setUpdateFrequency (frequency : ℕ) (s : ExperimentState) : ExperimentState :=
  { s with updateFrequency := frequency }

/-- Store action `setDispersionFactor`. -/
def setDispersionFactor (factor : ℝ) (s : ExperimentState) : ExperimentState :=
  { s with dispersionFactor := factor }

/-- Store action `togglePause`. -/
def togglePause (s : ExperimentState) : ExperimentState :=
  { s with isPaused := !s.isPaused }

/-- Store action `toggleAutoMode`. -/
def toggleAutoMode (s : ExperimentState) : ExperimentState :=
  { s with isAutoMode := !s.isAutoMode }

/-- Store action `incrementParticlesFired`. -/
def incrementParticlesFired (count : ℕ) (s : ExperimentState) : ExperimentState :=
  { s with stats := { s.stats with particlesFired := s.stats.particlesFired + count } }

/-- Store action `incrementParticlesDetected`. -/
def incrementParticlesDetected (count : ℕ) (s : ExperimentState) : ExperimentState :=
  { s with stats := { s.stats with particlesDetected := s.stats.particlesDetected + count } }

/-- Store action `incrementBarrierCollisions`. -/
def incrementBarrierCollisions (count : ℕ) (s : ExperimentState) : ExperimentState :=
  { s with stats := { s.stats with barrierCollisions := s.stats.barrierCollisions + count } }

/-- Store action `incrementSlitPassCount`: bumps the per-slit counter when
the index is inside the array (indices are naturals, so only the upper
bound of the source's `0 <= slitIndex < length` guard is modelled). -/
def incrementSlitPassCount (slitIndex : ℕ) (s : ExperimentState) : ExperimentState :=
  let counts :=
    if slitIndex < s.stats.slitPassCount.length then
      s.stats.slitPassCount.set slitIndex (s.stats.slitPassCount.getD slitIndex 0 + 1)
    else s.stats.slitPassCount
  { s with stats := { s.stats with slitPassCount := counts } }

/-- Store action `resetStats`; `now` stands for `Date.now()`. -/
def resetStats (now : ℕ) (s : ExperimentState) : ExperimentState :=
  { s with stats := freshStats now }

/-- Store action `resetExperiment`: clears the particle list, resets the
id counter to `1`, resets the statistics, and clears the pause flag when
auto mode is on.  The `resetDetectionScreen` window event it dispatches is
modelled separately by `resetScreen`. -/
def resetExperiment (now : ℕ) (s : ExperimentState) : ExperimentState :=
  { s with particles := [], nextParticleId := 1, stats := freshStats now,
           isPaused := if s.isAutoMode then false else s.isPaused }

/-- Store action `registerSlitPass`: replaces the record of the particle
with the given id by a copy carrying `slitIndex` (the other records and
the original record object are untouched). -/
def registerSlitPass (id : ℕ) (slitIndex : ℕ) (s : ExperimentState) : ExperimentState :=
  { s with particles := s.particles.map fun p =>
      if p.id = id then { p with slitIndex := some slitIndex } else p }

/-- Store action `fireParticles(count, direction?)`: a no-op while paused;
otherwise bumps the fired counter, creates `count` fresh particles with
consecutive ids starting at `nextParticleId`, dispersed directions scaled
by the particle speed, the emitter position `(-2, 0, 0)` and
`isActive = true`, and advances `nextParticleId` by `count`.  `rnd i`
supplies the four uniform draws consumed for particle `i`. -/
noncomputable def fireParticles (count : ℕ) (direction : Option Vec3)
    (rnd : ℕ → ℝ × ℝ × ℝ × ℝ) (s : ExperimentState) : ExperimentState :=
  if s.isPaused then s
  else
    let s1 := incrementParticlesFired count s
    let baseDirection := direction.getD s.baseDirection
    let newParticles := (List.range count).map fun i =>
      let u := rnd i
      let particleDirection :=
        applyAngularDispersion baseDirection s.dispersionFactor u.1 u.2.1 u.2.2.1 u.2.2.2
      let velocity := Vec3.scale s.particleSpeed particleDirection
      { id := s.nextParticleId + i, position := (⟨-2, 0, 0⟩ : Vec3),
        velocity := velocity, type := s.particleType, isActive := true,
        slitIndex := none : Particle }
    { s1 with particles := s1.particles ++ newParticles,
              nextParticleId := s1.nextParticleId + count }

/-- Store action `updateParticlePosition(id, position)`: maps over the
particle list, overwriting the position of the record whose id matches.
There is no check of `isActive`. -/
def updateParticlePosition (id : ℕ) (position : Vec3) (s : ExperimentState) : ExperimentState :=
  { s with particles := s.particles.map fun p =>
      if p.id = id then { p with position := position } else p }

/-- Store action `deactivateParticle(id)`. -/
def deactivateParticle (id : ℕ) (s : ExperimentState) : ExperimentState :=
  { s with particles := s.particles.map fun p =>
      if p.id = id then { p with isActive := false } else p }

/-- Store action `registerParticleImpact(id, position)`: bumps the
detected counter, then deactivates the particle if it exists (the
`particleImpact` window event it dispatches is consumed externally). -/
def registerParticleImpact (id : ℕ) (_position : Vec3) (s : ExperimentState) : ExperimentState :=
  let s1 := incrementParticlesDetected 1 s
  match s1.particles.find? (fun p => p.id == id) with
  | none => s1
  | some _ =>
      { s1 with particles := s1.particles.map fun p =>
          if p.id = id then { p with isActive := false } else p }

/-- One call to a store action, with its arguments.  The random draws of
`fireParticles` and the `Date.now()` reads are carried in the call. -/
inductive StoreOp where
  | setSlitWidth (width : ℝ)
  | setSlitSeparation (separation : ℝ)
  | setSlitCount (count : ℕ)
  | setParticleType (t : ParticleType)
  | setParticleSpeed (speed : ℝ)
  | setWavelength (wavelength : ℝ)
  | setObserved (observed : Bool)
  | setIsPaused (paused : Bool)
  | setIsAutoMode (auto : Bool)
  | setParticlesPerEmission (count : ℕ)
  | setEmissionSpeed (speed : ℕ)
  | setUpdateFrequency (frequency : ℕ)
  | setDispersionFactor (factor : ℝ)
  | togglePause
  | toggleAutoMode
  | incrementParticlesFired (count : ℕ)
  | incrementParticlesDetected (count : ℕ)
  | incrementBarrierCollisions (count : ℕ)
  | incrementSlitPassCount (slitIndex : ℕ)
  | resetStats (now : ℕ)
  | resetExperiment (now : ℕ)
  | registerSlitPass (id : ℕ) (slitIndex : ℕ)
  | fireParticles (count : ℕ) (direction : Option Vec3) (rnd : ℕ → ℝ × ℝ × ℝ × ℝ)
  | updateParticlePosition (id : ℕ) (position : Vec3)
  | deactivateParticle (id : ℕ)
  | registerParticleImpact (id : ℕ) (position : Vec3)

/-- Dispatch of one store call to its action. -/
noncomputable def applyOp : StoreOp → ExperimentState → ExperimentState
  | .setSlitWidth w, s => setSlitWidth w s
  | .setSlitSeparation v, s => setSlitSeparation v s
  | .setSlitCount c, s => setSlitCount c s
  | .setParticleType t, s => setParticleType t s
  | .setParticleSpeed v, s => setParticleSpeed v s
  | .setWavelength v, s => setWavelength v s
  | .setObserved b, s => setObserved b s
  | .setIsPaused b, s => setIsPaused b s
  | .setIsAutoMode b, s => setIsAutoMode b s
  | .setParticlesPerEmission c, s => setParticlesPerEmission c s
  | .setEmissionSpeed c, s => setEmissionSpeed c s
  | .setUpdateFrequency c, s => setUpdateFrequency c s
  | .setDispersionFactor v, s => setDispersionFactor v s
  | .togglePause, s => togglePause s
  | .toggleAutoMode, s => toggleAutoMode s
  | .incrementParticlesFired c, s => incrementParticlesFired c s
  | .incrementParticlesDetected c, s => incrementParticlesDetected c s
  | .incrementBarrierCollisions c, s => incrementBarrierCollisions c s
  | .incrementSlitPassCount i, s => incrementSlitPassCount i s
  | .resetStats n, s => resetStats n s
  | .resetExperiment n, s => resetExperiment n s
  | .registerSlitPass i j, s => registerSlitPass i j s
  | .fireParticles c d r, s => fireParticles c d r s
  | .updateParticlePosition i v, s => updateParticlePosition i v s
  | .deactivateParticle i, s => deactivateParticle i s
  | .registerParticleImpact i v, s => registerParticleImpact i v s

/-- Runs a sequence of store calls from a state. -/
noncomputable def runOps (ops : List StoreOp) (s : ExperimentState) : ExperimentState :=
  ops.foldl (fun t op => applyOp op t) s

/-- The particle ids a single store call hands out: `fireParticles`
issues `nextParticleId, ..., nextParticleId + count - 1` when the
simulation is not paused; every other call issues none. -/
def firedIds (op : StoreOp) (s : ExperimentState) : List ℕ :=
  match op with
  | .fireParticles count _ _ =>
      if s.isPaused then [] else (List.range count).map fun i => s.nextParticleId + i
  | _ => []

/-- All particle ids handed out along a sequence of store calls, in
issue order. -/
noncomputable def issuedIds : List StoreOp → ExperimentState → List ℕ
  | [], _ => []
  | op :: ops, s => firedIds op s ++ issuedIds ops (applyOp op s)

/-- Whether a store call is `resetExperiment`. -/
def isResetOp : StoreOp → Bool
  | .resetExperiment _ => true
  | _ => false

/-- The `slitStart` quantity of `checkSlitPassage` in `Particles.tsx`
(and of the shader): the center of the lowest slit. -/
noncomputable def slitStart (slitSeparation : ℝ) (slitCount : ℕ) : ℝ :=
  -slitSeparation * 0.5 * ((slitCount : ℝ) - 1)

/-- The `slitCenterY` quantity of `applyQuantumBehavior`: the center of
slit `i`. -/
noncomputable def slitCenterY (slitSeparation : ℝ) (slitCount : ℕ) (i : ℕ) : ℝ :=
  slitStart slitSeparation slitCount + (i : ℝ) * slitSeparation

/-- The loop of `checkSlitPassage` in `Particles.tsx`, scanning slits
`i, i+1, ...` up to `slitCount` for the first one whose aperture
`[slitY - slitWidth/2, slitY + slitWidth/2]` contains `y`. -/
noncomputable def checkSlitPassageFrom (y slitSeparation slitWidth : ℝ)
    (slitCount : ℕ) (i : ℕ) : Option ℕ :=
  if _h : i < slitCount then
    let slitY := slitStart slitSeparation slitCount + (i : ℝ) * slitSeparation
    if slitY - slitWidth * 0.5 ≤ y ∧ y ≤ slitY + slitWidth * 0.5 then some i
    else checkSlitPassageFrom y slitSeparation slitWidth slitCount (i + 1)
  else none
termination_by slitCount - i

/-- `checkSlitPassage(position)` of `Particles.tsx`: the index of the slit
the y-coordinate falls into, or `none` for a barrier hit (`passes: false`). -/
noncomputable def checkSlitPassage (y slitSeparation slitWidth : ℝ)
    (slitCount : ℕ) : Option ℕ :=
  checkSlitPassageFrom y slitSeparation slitWidth slitCount 0

/-- The `quantumEffect` value computed by `applyQuantumBehavior` in
`Particles.tsx` for a given store state, particle record and random draw
`r = Math.random()`; `screenDistanceRef.current = 4.0`.  When the
collapsed branch is taken and the record has no `slitIndex`, the effect
stays `0` (the `if (particle.slitIndex !== undefined)` guard). -/
noncomputable def quantumDeflection (s : ExperimentState) (particle : Particle)
    (r : ℝ) : ℝ :=
  let normalizedY := particle.position.y
  let effectiveDistance : ℝ := 4.0
  if s.slitCount = 1 then
    (calculateSingleSlitPattern normalizedY effectiveDistance s.slitWidth s.wavelength
      - 0.5) * 0.05
  else
    let properties := PARTICLE_PROPERTIES particle.type
    let noCollapse :=
      particle.type = ParticleType.neutrino ∧ r > properties.observationCollapseFactor
    if s.isObserved = false ∨ noCollapse then
      (calculateMultiSlitPattern normalizedY effectiveDistance s.slitSeparation
        (s.slitCount : ℝ) s.wavelength - 0.5) * 0.1
    else
      match particle.slitIndex with
      | some i => (slitCenterY s.slitSeparation s.slitCount i - normalizedY) * 0.01
      | none => 0

/-- `applyQuantumBehavior(particle)` of `Particles.tsx`: adds the quantum
deflection to the y-velocity, then renormalizes to the original speed
(`velocity.normalize().multiplyScalar(particle.velocity.length())`). -/
noncomputable def applyQuantumBehavior (s : ExperimentState) (particle : Particle)
    (r : ℝ) : Vec3 :=
  let quantumEffect := quantumDeflection s particle r
  let velocity : Vec3 :=
    ⟨particle.velocity.x, particle.velocity.y + quantumEffect, particle.velocity.z⟩
  Vec3.scale particle.velocity.length (Vec3.normalize velocity)

/-- Models `particle.velocity.copy(quantumVelocity)` at the end of the
slit-passage branch: the `Vector3` object is shared between the frame
loop's snapshot record and the store's current record (`registerSlitPass`
and `updateParticlePosition` copy the reference), so the in-place `copy`
shows up as the stored velocity of the particle with that id. -/
def setParticleVelocity (id : ℕ) (velocity : Vec3) (s : ExperimentState) : ExperimentState :=
  { s with particles := s.particles.map fun p =>
      if p.id = id then { p with velocity := velocity } else p }

/-- The barrier-crossing branch of the `useFrame` loop in `Particles.tsx`,
for one particle whose candidate position has just crossed the barrier
plane.  `particle` is the loop's snapshot record (captured at the last
render): `registerSlitPass` stores a fresh record carrying `slitIndex`,
but `applyQuantumBehavior` is then called on the unmodified snapshot. -/
noncomputable def barrierCrossingStep (s : ExperimentState) (particle : Particle)
    (newPosition : Vec3) (r : ℝ) : ExperimentState :=
  match checkSlitPassage newPosition.y s.slitSeparation s.slitWidth s.slitCount with
  | some slitIndex =>
      let s1 := registerSlitPass particle.id slitIndex s
      let quantumVelocity := applyQuantumBehavior s particle r
      let s2 := updateParticlePosition particle.id newPosition s1
      setParticleVelocity particle.id quantumVelocity s2
  | none => deactivateParticle particle.id s

/-- An RGB color entry of the `particleColors` table in
`DetectionScreen.tsx`. -/
structure ImpactColor where
  r : ℕ
  g : ℕ
  b : ℕ

/-- The `particleColors` table of `DetectionScreen.tsx`: it has entries
for `electron` and `photon` only.  A neutrino impact reads `color.r` of
`undefined`, which throws inside the surrounding try/catch and leaves the
texture untouched; this is modelled by `none`. -/
def particleColors : ParticleType → Option ImpactColor
  | .electron => some ⟨100, 181, 246⟩
  | .photon => some ⟨255, 238, 88⟩
  | .neutrino => none

/-- One RGBA texel of the detection texture (a `Uint8Array` holds values
in `0..255`; every write in the source is clamped into that range). -/
structure Texel where
  r : ℕ
  g : ℕ
  b : ℕ
  a : ℕ

/-- The detection texture, as a map from texel coordinates `(x, y)` to
texel values; coordinates outside `[0,256) × [0,256)` are never written. -/
def DetectionField : Type := ℤ → ℤ → Texel

/-- The all-transparent-black texture created on mount. -/
def initialField : DetectionField := fun _ _ => ⟨0, 0, 0, 0⟩

/-- The coordinate mapping of `registerImpact`: with `screenHeight = 1.5`
and a `256`-texel axis, `floor(((p + 1.5/2) / 1.5) * 256)`. -/
noncomputable def textureCoord (p : ℝ) : ℤ :=
  ⌊(p + 1.5 / 2) / 1.5 * 256⌋

/-- `registerImpact(particleY, particleZ, particleType)` of
`DetectionScreen.tsx`.  When the mapped center texel is inside the
texture: the center texel is assigned the particle color with alpha 255;
every other texel of the `9 × 9` neighborhood that is inside the texture
receives an additive, 255-clamped color contribution weighted by
`max(0, 1 - dist/4)` and an alpha raised to at least `floor(255 * weight)`. -/
noncomputable def registerImpact (particleY particleZ : ℝ) (particleType : ParticleType)
    (field : DetectionField) : DetectionField :=
  match particleColors particleType with
  | none => field
  | some color =>
      let textureY := textureCoord particleY
      let textureX := textureCoord particleZ
      if 0 ≤ textureX ∧ textureX < 256 ∧ 0 ≤ textureY ∧ textureY < 256 then
        fun px py =>
          if px = textureX ∧ py = textureY then ⟨color.r, color.g, color.b, 255⟩
          else if (px - textureX).natAbs ≤ 4 ∧ (py - textureY).natAbs ≤ 4 ∧
              0 ≤ px ∧ px < 256 ∧ 0 ≤ py ∧ py < 256 then
            let dx : ℝ := ((px - textureX : ℤ) : ℝ)
            let dy : ℝ := ((py - textureY : ℤ) : ℝ)
            let distance := Real.sqrt (dx * dx + dy * dy)
            let intensity := max 0 (1 - distance / 4)
            let alpha := ⌊255 * intensity⌋₊
            let c := field px py
            ⟨min 255 (c.r + ⌊(color.r : ℝ) * intensity⌋₊),
             min 255 (c.g + ⌊(color.g : ℝ) * intensity⌋₊),
             min 255 (c.b + ⌊(color.b : ℝ) * intensity⌋₊),
             max c.a alpha⟩
          else field px py
      else field

/-- `handleResetScreen` of `DetectionScreen.tsx` (triggered by the
`resetDetectionScreen` event): writes transparent black into every texel
of the `256 × 256` texture. -/
def resetScreen (field : DetectionField) : DetectionField :=
  fun px py =>
    if 0 ≤ px ∧ px < 256 ∧ 0 ≤ py ∧ py < 256 then ⟨0, 0, 0, 0⟩
    else field px py

/-!  Verification.  One main theorem per specification claim, with closed
witness and counterexample theorems at concrete inputs. -/

/-- C1: for positive screen distance, slit width and wavelength,
`calculateSingleSlitPattern` returns exactly `1.0` when the diffraction
argument `pi * slitWidth * (y / screenDistance) / wavelength` is below the
epsilon threshold, returns `sinc^2` of that argument otherwise, and the
result always lies in `[0, 1]`. -/
theorem single_slit_pattern_spec (y screenDistance slitWidth wavelength : ℝ)
    (hD : 0 < screenDistance) (hw : 0 < slitWidth) (hl : 0 < wavelength) :
    (|Real.pi * slitWidth * (y / screenDistance) / wavelength| < 0.0001 →
        calculateSingleSlitPattern y screenDistance slitWidth wavelength = 1.0) ∧
    (¬ |Real.pi * slitWidth * (y / screenDistance) / wavelength| < 0.0001 →
        calculateSingleSlitPattern y screenDistance slitWidth wavelength =
          (Real.sin (Real.pi * slitWidth * (y / screenDistance) / wavelength) /
            (Real.pi * slitWidth * (y / screenDistance) / wavelength)) ^ 2) ∧
    0 ≤ calculateSingleSlitPattern y screenDistance slitWidth wavelength ∧
    calculateSingleSlitPattern y screenDistance slitWidth wavelength ≤ 1 := by
  have hbody : calculateSingleSlitPattern y screenDistance slitWidth wavelength =
      if |Real.pi * slitWidth * (y / screenDistance) / wavelength| < 0.0001 then 1.0
      else
        (Real.sin (Real.pi * slitWidth * (y / screenDistance) / wavelength) /
          (Real.pi * slitWidth * (y / screenDistance) / wavelength)) *
        (Real.sin (Real.pi * slitWidth * (y / screenDistance) / wavelength) /
          (Real.pi * slitWidth * (y / screenDistance) / wavelength)) := rfl
  by_cases hc : |Real.pi * slitWidth * (y / screenDistance) / wavelength| < 0.0001
  · rw [hbody, if_pos hc]
    exact ⟨fun _ => rfl, fun h => absurd hc h, by norm_num, by norm_num⟩
  · have hargne : Real.pi * slitWidth * (y / screenDistance) / wavelength ≠ 0 := by
      intro h0
      apply hc
      rw [h0, abs_zero]
      norm_num
    rw [hbody, if_neg hc]
    refine ⟨fun h => absurd h hc, fun _ => by ring, mul_self_nonneg _, ?_⟩
    have hsq : Real.sin (Real.pi * slitWidth * (y / screenDistance) / wavelength) ^ 2 ≤
        (Real.pi * slitWidth * (y / screenDistance) / wavelength) ^ 2 := Real.sin_sq_le_sq
    have hpos : 0 < (Real.pi * slitWidth * (y / screenDistance) / wavelength) ^ 2 := by
      have habs : 0 < |Real.pi * slitWidth * (y / screenDistance) / wavelength| :=
        abs_pos.mpr hargne
      calc (0:ℝ) < |Real.pi * slitWidth * (y / screenDistance) / wavelength| ^ 2 :=
            pow_pos habs 2
        _ = (Real.pi * slitWidth * (y / screenDistance) / wavelength) ^ 2 := sq_abs _
    calc (Real.sin (Real.pi * slitWidth * (y / screenDistance) / wavelength) /
            (Real.pi * slitWidth * (y / screenDistance) / wavelength)) *
          (Real.sin (Real.pi * slitWidth * (y / screenDistance) / wavelength) /
            (Real.pi * slitWidth * (y / screenDistance) / wavelength)) =
          Real.sin (Real.pi * slitWidth * (y / screenDistance) / wavelength) ^ 2 /
            (Real.pi * slitWidth * (y / screenDistance) / wavelength) ^ 2 := by ring
      _ ≤ 1 := by rw [div_le_one hpos]; exact hsq

/-- Witness for C1 at the concrete input `(y, D, a, lam) = (0, 1, 1, 1)`. -/
theorem single_slit_pattern_spec_witness :
    0 ≤ calculateSingleSlitPattern 0 1 1 1 ∧ calculateSingleSlitPattern 0 1 1 1 ≤ 1 :=
  ⟨(single_slit_pattern_spec 0 1 1 1 (by norm_num) (by norm_num) (by norm_num)).2.2.1,
   (single_slit_pattern_spec 0 1 1 1 (by norm_num) (by norm_num) (by norm_num)).2.2.2⟩

/-- C2: `calculateMultiSlitPattern` is the two-slit base `cos^2(phase/2)`
raised to the sharpness exponent `1 + 0.5 * (slitCount - 2)` times the
single-slit envelope with aperture `slitSeparation / 5`, and it equals
`1.0` at `y = 0` for positive parameters and at least two slits. -/
theorem multi_slit_pattern_spec (y screenDistance slitSeparation slitCount wavelength : ℝ)
    (hD : 0 < screenDistance) (hsep : 0 < slitSeparation) (hn : 2 ≤ slitCount)
    (hl : 0 < wavelength) :
    calculateMultiSlitPattern y screenDistance slitSeparation slitCount wavelength =
      (Real.cos (2 * Real.pi * slitSeparation * (y / screenDistance) / wavelength / 2)
          ^ (2 : ℕ)) ^ (1 + 0.5 * (slitCount - 2)) *
        calculateSingleSlitPattern y screenDistance (slitSeparation / 5) wavelength ∧
    calculateMultiSlitPattern 0 screenDistance slitSeparation slitCount wavelength = 1 := by
  constructor
  · rfl
  · show (Real.cos (2 * Real.pi * slitSeparation * (0 / screenDistance) / wavelength / 2)
          ^ (2 : ℕ)) ^ (1 + 0.5 * (slitCount - 2)) *
        calculateSingleSlitPattern 0 screenDistance (slitSeparation / 5) wavelength = 1
    have h1 : 2 * Real.pi * slitSeparation * (0 / screenDistance) / wavelength / 2 = 0 := by
      rw [zero_div]
      ring
    have h2 : calculateSingleSlitPattern 0 screenDistance (slitSeparation / 5) wavelength
        = 1 := by
      show (if |Real.pi * (slitSeparation / 5) * (0 / screenDistance) / wavelength| < 0.0001
          then (1.0 : ℝ) else _) = 1
      rw [if_pos]
      · norm_num
      · rw [zero_div, mul_zero, zero_div, abs_zero]
        norm_num
    rw [h1, Real.cos_zero, one_pow, Real.one_rpow, h2, mul_one]

/-- Witness for C2 at the concrete input `(D, sep, n, lam) = (1, 1, 2, 1)`. -/
theorem multi_slit_pattern_spec_witness : calculateMultiSlitPattern 0 1 1 2 1 = 1 :=
  (multi_slit_pattern_spec 0 1 1 2 1 (by norm_num) (by norm_num) (by norm_num)
    (by norm_num)).2

/-- C4: `applyObservationEffect` scales the pattern by
`(1 - collapseFactor)` for non-neutrino kinds and by
`(1 - collapseFactor * 0.2)` for neutrinos, with the collapse factor read
from the static `PARTICLE_PROPERTIES` table. -/
theorem observation_effect_spec (t : ParticleType) (pattern : ℝ) :
    (t ≠ ParticleType.neutrino →
      applyObservationEffect t pattern =
        pattern * (1 - (PARTICLE_PROPERTIES t).observationCollapseFactor)) ∧
    (t = ParticleType.neutrino →
      applyObservationEffect t pattern =
        pattern * (1 - (PARTICLE_PROPERTIES t).observationCollapseFactor * 0.2)) := by
  constructor
  · intro h
    simp only [applyObservationEffect, if_neg h]
  · intro h
    simp only [applyObservationEffect, if_pos h]

/-- Witness for C4 at the electron and the neutrino with pattern `0.7`. -/
theorem observation_effect_spec_witness :
    applyObservationEffect ParticleType.electron 0.7 =
      0.7 * (1 - (PARTICLE_PROPERTIES ParticleType.electron).observationCollapseFactor) ∧
    applyObservationEffect ParticleType.neutrino 0.7 =
      0.7 * (1 - (PARTICLE_PROPERTIES ParticleType.neutrino).observationCollapseFactor
        * 0.2) :=
  ⟨(observation_effect_spec ParticleType.electron 0.7).1 (by decide),
   (observation_effect_spec ParticleType.neutrino 0.7).2 rfl⟩

/-- C10: `setParticleType` writes exactly two fields: the particle type,
and the wavelength (overwritten with the kind's default wavelength from
the property table); every other field of the state is unchanged. -/
theorem set_particle_type_spec (t : ParticleType) (s : ExperimentState) :
    (setParticleType t s).particleType = t ∧
    (setParticleType t s).wavelength = (PARTICLE_PROPERTIES t).defaultWavelength ∧
    (setParticleType t s).slitWidth = s.slitWidth ∧
    (setParticleType t s).slitSeparation = s.slitSeparation ∧
    (setParticleType t s).slitCount = s.slitCount ∧
    (setParticleType t s).particleSpeed = s.particleSpeed ∧
    (setParticleType t s).isObserved = s.isObserved ∧
    (setParticleType t s).dispersionFactor = s.dispersionFactor ∧
    (setParticleType t s).baseDirection = s.baseDirection ∧
    (setParticleType t s).particles = s.particles ∧
    (setParticleType t s).nextParticleId = s.nextParticleId ∧
    (setParticleType t s).isPaused = s.isPaused ∧
    (setParticleType t s).isAutoMode = s.isAutoMode ∧
    (setParticleType t s).particlesPerEmission = s.particlesPerEmission ∧
    (setParticleType t s).emissionSpeed = s.emissionSpeed ∧
    (setParticleType t s).updateFrequency = s.updateFrequency ∧
    (setParticleType t s).stats = s.stats :=
  ⟨rfl, rfl, rfl, rfl, rfl, rfl, rfl, rfl, rfl, rfl, rfl, rfl, rfl, rfl, rfl, rfl, rfl⟩

/-- C7 counterexample: from the initial state, `setObserved(true)`
followed by `setSlitCount(1)` reaches a state with `slitCount = 1` and
`isObserved = true`, because `setSlitCount` writes only `slitCount`. -/
theorem slit_count_one_observed_reachable :
    (runOps [StoreOp.setObserved true, StoreOp.setSlitCount 1] initialState).slitCount
      = 1 ∧
    (runOps [StoreOp.setObserved true, StoreOp.setSlitCount 1] initialState).isObserved
      = true := by
  constructor <;> rfl

/-- C7 amended: `setObserved` is forced to `false` while `slitCount = 1`,
but `setSlitCount` writes only the slit count and never clears
`isObserved`, so the combination `slitCount = 1` with `isObserved = true`
is reachable by setting the count to 1 after enabling observation. -/
theorem set_observed_guard_spec (s : ExperimentState) (b : Bool) (c : ℕ) :
    (s.slitCount = 1 → (setObserved b s).isObserved = false) ∧
    (setSlitCount c s).isObserved = s.isObserved ∧
    (setSlitCount c s).slitCount = c := by
  refine ⟨fun h => ?_, rfl, rfl⟩
  simp only [setObserved, if_pos h]

/-- Witness for C7 amended: enabling observation right after setting one
slit is refused. -/
theorem set_observed_guard_spec_witness :
    (setObserved true (setSlitCount 1 initialState)).isObserved = false :=
  (set_observed_guard_spec (setSlitCount 1 initialState) true 1).1 rfl

/-- Mapping the position-update function over a list with no matching id
leaves the list unchanged. -/
theorem map_update_of_no_match (id : ℕ) (pos : Vec3) (l : List Particle)
    (h : ∀ p ∈ l, p.id ≠ id) :
    (l.map fun p => if p.id = id then { p with position := pos } else p) = l := by
  induction l with
  | nil => rfl
  | cons q qs ih =>
      simp only [List.map_cons]
      rw [if_neg (h q (List.mem_cons_self q qs)),
        ih fun p hp => h p (List.mem_cons_of_mem q hp)]

/-- C5 amended: `updateParticlePosition` is a no-op when no particle has
the id; when a particle has the id, its position is overwritten -- also
when `isActive = false` -- while its other fields and all the other
particles are kept. -/
theorem update_position_spec (id : ℕ) (pos : Vec3) (s : ExperimentState) :
    ((∀ p ∈ s.particles, p.id ≠ id) → updateParticlePosition id pos s = s) ∧
    (∀ p ∈ s.particles, p.id ≠ id → p ∈ (updateParticlePosition id pos s).particles) ∧
    (∀ p ∈ s.particles, p.id = id →
      { p with position := pos } ∈ (updateParticlePosition id pos s).particles) := by
  refine ⟨fun h => ?_, fun p hp hne => ?_, fun p hp he => ?_⟩
  · unfold updateParticlePosition
    rw [map_update_of_no_match id pos s.particles h]
  · exact List.mem_map.mpr ⟨p, hp, by rw [if_neg hne]⟩
  · exact List.mem_map.mpr ⟨p, hp, by rw [if_pos he]⟩

/-- Witness for C5 amended: updating an id absent from the initial
(empty) particle list leaves the state unchanged. -/
theorem update_position_spec_witness :
    updateParticlePosition 3 ⟨1, 2, 3⟩ initialState = initialState :=
  (update_position_spec 3 ⟨1, 2, 3⟩ initialState).1 (by simp [initialState])

/-- An inactive particle, for exercising `updateParticlePosition`. -/
def inactiveParticle : Particle :=
  ⟨1, ⟨0, 0, 0⟩, ⟨1, 0, 0⟩, ParticleType.electron, false, none⟩

/-- C5 counterexample: on a store whose only particle is inactive,
`updateParticlePosition` with that particle's id overwrites its position
-- the call is not a no-op on an inactive particle. -/
theorem update_position_mutates_inactive :
    (updateParticlePosition 1 ⟨5, 5, 5⟩
        { initialState with particles := [inactiveParticle] }).particles =
      [{ inactiveParticle with position := ⟨5, 5, 5⟩ }] ∧
    inactiveParticle.isActive = false ∧
    ({ inactiveParticle with position := (⟨5, 5, 5⟩ : Vec3) }).position
      ≠ inactiveParticle.position := by
  refine ⟨rfl, rfl, fun h => ?_⟩
  have h5 : (5 : ℝ) = 0 := congrArg Vec3.x h
  norm_num at h5

/-- `nextParticleId` never decreases under a store call that is not
`resetExperiment`. -/
theorem nextParticleId_mono (op : StoreOp) (s : ExperimentState)
    (h : isResetOp op = false) :
    s.nextParticleId ≤ (applyOp op s).nextParticleId := by
  cases op
  case resetExperiment n => simp [isResetOp] at h
  case setObserved b =>
    simp only [applyOp, setObserved]
    split <;> exact le_rfl
  case fireParticles c d r =>
    simp only [applyOp, fireParticles]
    split
    · exact le_rfl
    · exact Nat.le_add_right _ _
  case registerParticleImpact i v =>
    simp only [applyOp, registerParticleImpact]
    split <;> exact le_rfl
  all_goals exact le_rfl

/-- The ids issued by a single store call lie between the state's
`nextParticleId` and the successor state's `nextParticleId`. -/
theorem firedIds_bounds (op : StoreOp) (s : ExperimentState) (n : ℕ)
    (hn : n ∈ firedIds op s) :
    s.nextParticleId ≤ n ∧ n < (applyOp op s).nextParticleId := by
  cases op <;> simp only [firedIds] at hn <;>
    try exact absurd hn (List.not_mem_nil n)
  case fireParticles c d r =>
    by_cases hp : s.isPaused
    · rw [if_pos hp] at hn
      exact absurd hn (List.not_mem_nil n)
    · rw [if_neg hp] at hn
      simp only [List.mem_map, List.mem_range] at hn
      obtain ⟨i, hi, rfl⟩ := hn
      refine ⟨Nat.le_add_right _ _, ?_⟩
      simp only [applyOp, fireParticles, if_neg hp]
      exact Nat.add_lt_add_left hi _

/-- Every id issued along a reset-free trace is at least the starting
`nextParticleId`. -/
theorem issuedIds_lower (ops : List StoreOp) (s : ExperimentState) (n : ℕ)
    (hreset : ∀ op ∈ ops, isResetOp op = false) (hn : n ∈ issuedIds ops s) :
    s.nextParticleId ≤ n := by
  induction ops generalizing s with
  | nil => simp [issuedIds] at hn
  | cons op ops ih =>
      simp only [issuedIds, List.mem_append] at hn
      rcases hn with h | h
      · exact (firedIds_bounds op s n h).1
      · exact le_trans (nextParticleId_mono op s (hreset op (List.mem_cons_self op ops)))
          (ih (applyOp op s) (fun q hq => hreset q (List.mem_cons_of_mem op hq)) h)

/-- C6 amended: along any sequence of store calls that contains no
`resetExperiment`, the particle ids issued by the `fireParticles` calls
are strictly increasing, hence never reused; `resetExperiment` restarts
the id counter at 1, so ids are reused across a reset within one session. -/
theorem issued_ids_strictly_increasing (ops : List StoreOp) (s : ExperimentState)
    (hreset : ∀ op ∈ ops, isResetOp op = false) :
    (issuedIds ops s).Pairwise (· < ·) := by
  induction ops generalizing s with
  | nil => exact List.Pairwise.nil
  | cons op ops ih =>
      rw [issuedIds]
      refine List.pairwise_append.mpr ⟨?_, ?_, ?_⟩
      · cases op <;> simp only [firedIds]
        case fireParticles c d r =>
          split
          · exact List.Pairwise.nil
          · exact List.Pairwise.map _ (fun a b hab => Nat.add_lt_add_left hab _)
              (List.pairwise_lt_range c)
        all_goals exact List.Pairwise.nil
      · exact ih (applyOp op s) fun q hq => hreset q (List.mem_cons_of_mem op hq)
      · intro a ha b hb
        exact lt_of_lt_of_le (firedIds_bounds op s a ha).2
          (issuedIds_lower ops (applyOp op s) b
            (fun q hq => hreset q (List.mem_cons_of_mem op hq)) hb)

/-- A constant random source, for concrete traces. -/
def constRnd : ℕ → ℝ × ℝ × ℝ × ℝ := fun _ => (1, 0, 1, 0)

/-- C6 counterexample: firing one particle, resetting, and firing again
issues the id `1` twice -- ids are reused after `resetExperiment` within
one session. -/
theorem ids_reused_across_reset :
    issuedIds [StoreOp.fireParticles 1 none constRnd, StoreOp.resetExperiment 0,
        StoreOp.fireParticles 1 none constRnd] initialState = [1, 1] ∧
    ¬ ([1, 1] : List ℕ).Pairwise (· < ·) := by
  constructor
  · rfl
  · intro h
    have h11 : (1 : ℕ) < 1 := List.rel_of_pairwise_cons h (List.mem_singleton.mpr rfl)
    exact absurd h11 (lt_irrefl 1)

/-- Witness for C6 amended on a concrete reset-free trace: two fire calls
with a setter in between issue the strictly increasing ids 1, 2, 3. -/
theorem issued_ids_strictly_increasing_witness :
    (issuedIds [StoreOp.fireParticles 2 none constRnd, StoreOp.setSlitWidth 0.3,
        StoreOp.fireParticles 1 none constRnd] initialState).Pairwise (· < ·) := by
  apply issued_ids_strictly_increasing
  intro op hop
  simp only [List.mem_cons, List.not_mem_nil, or_false] at hop
  rcases hop with rfl | rfl | rfl <;> rfl

/-- The squared length of a vector is nonnegative. -/
theorem Vec3.normSq_nonneg (v : Vec3) : 0 ≤ v.normSq := by
  have hx := mul_self_nonneg v.x
  have hy := mul_self_nonneg v.y
  have hz := mul_self_nonneg v.z
  unfold Vec3.normSq
  linarith

/-- The squared length vanishes exactly on the zero vector. -/
theorem Vec3.normSq_eq_zero (v : Vec3) : v.normSq = 0 ↔ v = ⟨0, 0, 0⟩ := by
  constructor
  · intro h
    unfold Vec3.normSq at h
    have hx := mul_self_nonneg v.x
    have hy := mul_self_nonneg v.y
    have hz := mul_self_nonneg v.z
    have hx0 : v.x = 0 := by nlinarith
    have hy0 : v.y = 0 := by nlinarith
    have hz0 : v.z = 0 := by nlinarith
    exact Vec3.ext hx0 hy0 hz0
  · intro h
    rw [h]
    unfold Vec3.normSq
    norm_num

/-- The length vanishes exactly on the zero vector. -/
theorem Vec3.length_eq_zero (v : Vec3) : v.length = 0 ↔ v = ⟨0, 0, 0⟩ := by
  unfold Vec3.length
  rw [Real.sqrt_eq_zero (Vec3.normSq_nonneg v)]
  exact Vec3.normSq_eq_zero v

/-- Scaling the normalized vector back by the original length returns the
original vector (for the zero vector both sides are zero). -/
theorem Vec3.scale_length_normalize (v : Vec3) :
    Vec3.scale v.length (Vec3.normalize v) = v := by
  unfold Vec3.normalize
  by_cases h : v.length = 0
  · rw [if_pos h, h]
    have hv : v = ⟨0, 0, 0⟩ := (Vec3.length_eq_zero v).mp h
    rw [hv]
    unfold Vec3.scale
    norm_num
  · rw [if_neg h]
    ext
    · show v.x * v.length⁻¹ * v.length = v.x
      rw [mul_assoc, inv_mul_cancel₀ h, mul_one]
    · show v.y * v.length⁻¹ * v.length = v.y
      rw [mul_assoc, inv_mul_cancel₀ h, mul_one]
    · show v.z * v.length⁻¹ * v.length = v.z
      rw [mul_assoc, inv_mul_cancel₀ h, mul_one]

/-- When the quantum deflection is zero, `applyQuantumBehavior` returns
the particle's velocity unchanged. -/
theorem applyQuantumBehavior_of_deflection_zero (s : ExperimentState) (p : Particle)
    (r : ℝ) (h : quantumDeflection s p r = 0) :
    applyQuantumBehavior s p r = p.velocity := by
  simp only [applyQuantumBehavior]
  rw [h, add_zero]
  exact Vec3.scale_length_normalize p.velocity

/-- C3 amended: for an observed electron at a multi-slit barrier the
wave-like branch is unreachable for every random draw; the collapsed
branch adds the slit-center pull `(slitCenterY(i) - y) * 0.01` only when
the particle record already carries `slitIndex = i`, and adds `0` --
leaving the velocity unchanged -- when the record carries none, which is
what the frame loop passes at slit-passage time (the snapshot record has
no slit index yet). -/
theorem electron_observed_collapses (s : ExperimentState) (p : Particle) (r : ℝ)
    (hobs : s.isObserved = true) (ht : p.type = ParticleType.electron)
    (hc : s.slitCount ≠ 1) :
    ¬ (s.isObserved = false ∨
        (p.type = ParticleType.neutrino ∧
          r > (PARTICLE_PROPERTIES p.type).observationCollapseFactor)) ∧
    (∀ i, p.slitIndex = some i →
      quantumDeflection s p r =
        (slitCenterY s.slitSeparation s.slitCount i - p.position.y) * 0.01) ∧
    (p.slitIndex = none →
      quantumDeflection s p r = 0 ∧ applyQuantumBehavior s p r = p.velocity) := by
  have hbranch : ¬ (s.isObserved = false ∨
      (p.type = ParticleType.neutrino ∧
        r > (PARTICLE_PROPERTIES p.type).observationCollapseFactor)) := by
    rintro (h | ⟨h2, _⟩)
    · rw [hobs] at h
      exact Bool.noConfusion h
    · rw [ht] at h2
      exact absurd h2 (by decide)
  refine ⟨hbranch, fun i hi => ?_, fun hnone => ?_⟩
  · simp only [quantumDeflection, if_neg hc, if_neg hbranch, hi]
  · have h0 : quantumDeflection s p r = 0 := by
      simp only [quantumDeflection, if_neg hc, if_neg hbranch, hnone]
    exact ⟨h0, applyQuantumBehavior_of_deflection_zero s p r h0⟩

/-- The frame loop's snapshot of a freshly fired electron crossing the
barrier at `y = 0.05`: its `slitIndex` is not yet set. -/
noncomputable def snapshotParticle : Particle :=
  ⟨1, ⟨-0.06, 0.05, 0⟩, ⟨1, 0, 0⟩, ParticleType.electron, true, none⟩

/-- An observed two-slit store holding the snapshot particle. -/
noncomputable def observedElectronState : ExperimentState :=
  { initialState with isObserved := true, particles := [snapshotParticle] }

/-- The slit scan at `y = 0.05` with the default two-slit geometry finds
slit `1` (centered at `0.1`, aperture `[0.05, 0.15]`). -/
theorem checkSlitPassage_concrete : checkSlitPassage 0.05 0.2 0.1 2 = some 1 := by
  unfold checkSlitPassage
  rw [checkSlitPassageFrom]
  rw [dif_pos (by norm_num)]
  rw [if_neg (by norm_num [slitStart])]
  rw [checkSlitPassageFrom]
  rw [dif_pos (by norm_num)]
  rw [if_pos (by norm_num [slitStart])]

/-- C3 counterexample: for the observed electron crossing at `y = 0.05`,
the collapsed branch adds deflection `0` (the snapshot has no slit
index), and the whole crossing step leaves the stored velocity at
`(1, 0, 0)`, while the slit-center pull the claim prescribes at this
input is `0.0005`, which is not `0`. -/
theorem collapsed_deflection_zero_at_call_site :
    quantumDeflection observedElectronState snapshotParticle 0.5 = 0 ∧
    (barrierCrossingStep observedElectronState snapshotParticle
        ⟨-0.04, 0.05, 0⟩ 0.5).particles.map Particle.velocity = [⟨1, 0, 0⟩] ∧
    (slitCenterY observedElectronState.slitSeparation observedElectronState.slitCount 1
        - snapshotParticle.position.y) * 0.01 = 0.0005 ∧
    (0.0005 : ℝ) ≠ 0 := by
  have hbranch : ¬ (observedElectronState.isObserved = false ∨
      (snapshotParticle.type = ParticleType.neutrino ∧
        (0.5 : ℝ) > (PARTICLE_PROPERTIES snapshotParticle.type).observationCollapseFactor)) := by
    rintro (h | ⟨h2, _⟩)
    · exact Bool.noConfusion h
    · exact absurd h2 (by decide)
  have h0 : quantumDeflection observedElectronState snapshotParticle 0.5 = 0 := by
    simp only [quantumDeflection, if_neg (by decide :
      ¬ observedElectronState.slitCount = 1), if_neg hbranch]
    rfl
  have hqv : applyQuantumBehavior observedElectronState snapshotParticle 0.5
      = ⟨1, 0, 0⟩ := by
    rw [applyQuantumBehavior_of_deflection_zero _ _ _ h0]
    rfl
  have hargs : checkSlitPassage (⟨-0.04, 0.05, 0⟩ : Vec3).y
      observedElectronState.slitSeparation observedElectronState.slitWidth
      observedElectronState.slitCount = checkSlitPassage 0.05 0.2 0.1 2 := rfl
  have hstep : barrierCrossingStep observedElectronState snapshotParticle
      ⟨-0.04, 0.05, 0⟩ 0.5 =
      setParticleVelocity 1
        (applyQuantumBehavior observedElectronState snapshotParticle 0.5)
        (updateParticlePosition 1 ⟨-0.04, 0.05, 0⟩
          (registerSlitPass 1 1 observedElectronState)) := by
    unfold barrierCrossingStep
    rw [hargs, checkSlitPassage_concrete]
    rfl
  refine ⟨h0, ?_, ?_, by norm_num⟩
  · rw [hstep, hqv]
    rfl
  · show (slitCenterY 0.2 2 1 - 0.05) * 0.01 = 0.0005
    norm_num [slitCenterY, slitStart]

/-- Witness for C3 amended at the concrete observed electron snapshot:
the deflection is zero and the velocity is returned unchanged. -/
theorem electron_observed_collapses_witness :
    quantumDeflection observedElectronState snapshotParticle 0.5 = 0 ∧
    applyQuantumBehavior observedElectronState snapshotParticle 0.5
      = snapshotParticle.velocity :=
  (electron_observed_collapses observedElectronState snapshotParticle 0.5 rfl rfl
    (by decide)).2.2 rfl

/-- Rotation about the y-axis preserves the squared length. -/
theorem Vec3.normSq_rotateY (a : ℝ) (v : Vec3) :
    (Vec3.rotateY a v).normSq = v.normSq := by
  unfold Vec3.rotateY Vec3.normSq
  have h := Real.sin_sq_add_cos_sq a
  linear_combination (v.x * v.x + v.z * v.z) * h

/-- Rotation about the z-axis preserves the squared length. -/
theorem Vec3.normSq_rotateZ (a : ℝ) (v : Vec3) :
    (Vec3.rotateZ a v).normSq = v.normSq := by
  unfold Vec3.rotateZ Vec3.normSq
  have h := Real.sin_sq_add_cos_sq a
  linear_combination (v.x * v.x + v.y * v.y) * h

/-- Normalizing a nonzero vector yields a unit-length vector. -/
theorem Vec3.length_normalize_of_ne (v : Vec3) (h : v ≠ ⟨0, 0, 0⟩) :
    (Vec3.normalize v).length = 1 := by
  have hns : v.normSq ≠ 0 := fun h0 => h ((Vec3.normSq_eq_zero v).mp h0)
  have hpos : 0 < v.normSq := lt_of_le_of_ne (Vec3.normSq_nonneg v) (Ne.symm hns)
  have hlen : 0 < v.length := Real.sqrt_pos.mpr hpos
  have hl0 : v.length ≠ 0 := ne_of_gt hlen
  unfold Vec3.normalize
  rw [if_neg hl0]
  show Real.sqrt (Vec3.normSq (Vec3.scale v.length⁻¹ v)) = 1
  have h1 : Vec3.normSq (Vec3.scale v.length⁻¹ v)
      = v.normSq * (v.length⁻¹ * v.length⁻¹) := by
    unfold Vec3.normSq Vec3.scale
    ring
  have h2 : v.length * v.length = v.normSq :=
    Real.mul_self_sqrt (Vec3.normSq_nonneg v)
  have h3 : v.normSq * (v.length⁻¹ * v.length⁻¹) = 1 := by
    field_simp
    exact h2.symm
  rw [h1, h3, Real.sqrt_one]

/-- Rotation by the angle zero about the y-axis is the identity. -/
theorem Vec3.rotateY_zero (v : Vec3) : Vec3.rotateY 0 v = v := by
  unfold Vec3.rotateY
  rw [Real.cos_zero, Real.sin_zero]
  ext <;> simp

/-- Rotation by the angle zero about the z-axis is the identity. -/
theorem Vec3.rotateZ_zero (v : Vec3) : Vec3.rotateZ 0 v = v := by
  unfold Vec3.rotateZ
  rw [Real.cos_zero, Real.sin_zero]
  ext <;> simp

/-- C9 amended: `applyAngularDispersion` returns a unit-length vector for
every nonzero input direction and every dispersion factor and random
draws (for the zero vector the result is the zero vector again, since
THREE's `normalize` leaves it unchanged, so the unit-length guarantee
fails exactly there); with dispersion factor `0` it returns the
normalized input unchanged in direction, for every input and draws. -/
theorem angular_dispersion_spec (d : Vec3) (f u1 u2 u3 u4 : ℝ) :
    (d ≠ ⟨0, 0, 0⟩ → (applyAngularDispersion d f u1 u2 u3 u4).length = 1) ∧
    (f = 0 → applyAngularDispersion d f u1 u2 u3 u4 = Vec3.normalize d) := by
  constructor
  · intro hd
    simp only [applyAngularDispersion]
    apply Vec3.length_normalize_of_ne
    intro h0
    apply hd
    have hz : (Vec3.rotateZ (gaussianRandom 0 f u3 u4 * 0.1)
        (Vec3.rotateY (gaussianRandom 0 f u1 u2 * 0.1) d)).normSq = 0 := by
      rw [h0]
      unfold Vec3.normSq
      norm_num
    rw [Vec3.normSq_rotateZ, Vec3.normSq_rotateY] at hz
    exact (Vec3.normSq_eq_zero d).mp hz
  · intro hf
    simp only [applyAngularDispersion, gaussianRandom, hf, mul_zero, zero_add,
      zero_mul, Vec3.rotateY_zero, Vec3.rotateZ_zero]

/-- C9 counterexample: on the zero direction vector the sampler returns
the zero vector, whose length is `0`, not `1`. -/
theorem zero_direction_not_unit :
    applyAngularDispersion ⟨0, 0, 0⟩ 1 0.5 0.5 0.5 0.5 = ⟨0, 0, 0⟩ ∧
    Vec3.length ⟨0, 0, 0⟩ = 0 ∧ (0 : ℝ) ≠ 1 := by
  have hlen : Vec3.length ⟨0, 0, 0⟩ = 0 := by
    unfold Vec3.length Vec3.normSq
    rw [show (0:ℝ) * 0 + 0 * 0 + 0 * 0 = 0 by norm_num, Real.sqrt_zero]
  refine ⟨?_, hlen, by norm_num⟩
  simp only [applyAngularDispersion]
  have hy : Vec3.rotateY (gaussianRandom 0 1 0.5 0.5 * 0.1) ⟨0, 0, 0⟩ = ⟨0, 0, 0⟩ := by
    unfold Vec3.rotateY
    ext <;> simp
  have hz : Vec3.rotateZ (gaussianRandom 0 1 0.5 0.5 * 0.1) ⟨0, 0, 0⟩ = ⟨0, 0, 0⟩ := by
    unfold Vec3.rotateZ
    ext <;> simp
  rw [hy, hz]
  unfold Vec3.normalize
  rw [if_pos hlen]

/-- Witness for C9 amended at direction `(1, 0, 0)` with zero dispersion:
the result is unit length and equals the normalized input. -/
theorem angular_dispersion_spec_witness :
    (applyAngularDispersion ⟨1, 0, 0⟩ 0 0.5 0.5 0.5 0.5).length = 1 ∧
    applyAngularDispersion ⟨1, 0, 0⟩ 0 0.5 0.5 0.5 0.5 = Vec3.normalize ⟨1, 0, 0⟩ :=
  ⟨(angular_dispersion_spec ⟨1, 0, 0⟩ 0 0.5 0.5 0.5 0.5).1 (by
      intro h
      have h1 : (1 : ℝ) = 0 := congrArg Vec3.x h
      norm_num at h1),
   (angular_dispersion_spec ⟨1, 0, 0⟩ 0 0.5 0.5 0.5 0.5).2 rfl⟩

/-- The impact point `0` maps to the central texel coordinate `128`. -/
theorem textureCoord_zero : textureCoord 0 = 128 := by
  unfold textureCoord
  rw [show ((0:ℝ) + 1.5 / 2) / 1.5 * 256 = ((128:ℤ) : ℝ) by norm_num]
  exact Int.floor_intCast 128

/-- The neighborhood alpha increment `floor(255 * max 0 (1 - d/4))` is at
most 255 for a nonnegative distance `d`. -/
theorem floor_weight_le (d : ℝ) (hd : 0 ≤ d) :
    ⌊(255:ℝ) * max 0 (1 - d / 4)⌋₊ ≤ 255 := by
  have h2 : max (0:ℝ) (1 - d / 4) ≤ 1 := by
    apply max_le
    · norm_num
    · have h3 : 0 ≤ d / 4 := by positivity
      linarith
  have h1 : (255:ℝ) * max 0 (1 - d / 4) ≤ 255 := by nlinarith
  calc ⌊(255:ℝ) * max 0 (1 - d / 4)⌋₊ ≤ ⌊(255:ℝ)⌋₊ := Nat.floor_mono h1
    _ ≤ 255 := by simp

/-- The central texel of an in-bounds impact is assigned the particle's
color with full alpha. -/
theorem registerImpact_center (y z : ℝ) (t : ParticleType) (color : ImpactColor)
    (field : DetectionField) (hcol : particleColors t = some color)
    (hbx : 0 ≤ textureCoord z ∧ textureCoord z < 256)
    (hby : 0 ≤ textureCoord y ∧ textureCoord y < 256) :
    registerImpact y z t field (textureCoord z) (textureCoord y) =
      ⟨color.r, color.g, color.b, 255⟩ := by
  unfold registerImpact
  rw [hcol]
  try dsimp only
  rw [if_pos ⟨hbx.1, hbx.2, hby.1, hby.2⟩]
  try dsimp only
  rw [if_pos ⟨rfl, rfl⟩]

/-- C8 amended: away from the impact's central texel, `registerImpact`
never decreases any channel of any texel and keeps every channel clamped
to 255; the central texel however is overwritten with the particle's
color, which can decrease a channel; a reset writes zero into every texel
of the texture. -/
theorem register_impact_monotone_off_center (y z : ℝ) (t : ParticleType)
    (field : DetectionField) (px py : ℤ)
    (hmax : (field px py).r ≤ 255 ∧ (field px py).g ≤ 255 ∧
      (field px py).b ≤ 255 ∧ (field px py).a ≤ 255)
    (hne : ¬ (px = textureCoord z ∧ py = textureCoord y)) :
    ((field px py).r ≤ (registerImpact y z t field px py).r ∧
      (field px py).g ≤ (registerImpact y z t field px py).g ∧
      (field px py).b ≤ (registerImpact y z t field px py).b ∧
      (field px py).a ≤ (registerImpact y z t field px py).a) ∧
    ((registerImpact y z t field px py).r ≤ 255 ∧
      (registerImpact y z t field px py).g ≤ 255 ∧
      (registerImpact y z t field px py).b ≤ 255 ∧
      (registerImpact y z t field px py).a ≤ 255) ∧
    (0 ≤ px → px < 256 → 0 ≤ py → py < 256 →
      resetScreen field px py = ⟨0, 0, 0, 0⟩) := by
  obtain ⟨hr, hg, hb, ha⟩ := hmax
  have hreset : 0 ≤ px → px < 256 → 0 ≤ py → py < 256 →
      resetScreen field px py = ⟨0, 0, 0, 0⟩ := by
    intro h1 h2 h3 h4
    unfold resetScreen
    rw [if_pos ⟨h1, h2, h3, h4⟩]
  have hcases : registerImpact y z t field px py = field px py ∨
      ∃ kr kg kb ka : ℕ,
        registerImpact y z t field px py =
          ⟨min 255 ((field px py).r + kr), min 255 ((field px py).g + kg),
           min 255 ((field px py).b + kb), max (field px py).a ka⟩ ∧ ka ≤ 255 := by
    unfold registerImpact
    cases hcol : particleColors t with
    | none => exact Or.inl rfl
    | some color =>
        try dsimp only
        by_cases hbound : 0 ≤ textureCoord z ∧ textureCoord z < 256 ∧
            0 ≤ textureCoord y ∧ textureCoord y < 256
        · rw [if_pos hbound]
          try dsimp only
          rw [if_neg hne]
          by_cases hnb : (px - textureCoord z).natAbs ≤ 4 ∧
              (py - textureCoord y).natAbs ≤ 4 ∧
              0 ≤ px ∧ px < 256 ∧ 0 ≤ py ∧ py < 256
          · rw [if_pos hnb]
            refine Or.inr ⟨_, _, _, _, rfl, ?_⟩
            exact floor_weight_le _ (Real.sqrt_nonneg _)
          · rw [if_neg hnb]
            exact Or.inl rfl
        · rw [if_neg hbound]
          exact Or.inl rfl
  rcases hcases with heq | ⟨kr, kg, kb, ka, heq, hka⟩
  · rw [heq]
    exact ⟨⟨le_rfl, le_rfl, le_rfl, le_rfl⟩, ⟨hr, hg, hb, ha⟩, hreset⟩
  · rw [heq]
    refine ⟨⟨?_, ?_, ?_, ?_⟩, ⟨?_, ?_, ?_, ?_⟩, hreset⟩
    · exact le_min hr (Nat.le_add_right _ _)
    · exact le_min hg (Nat.le_add_right _ _)
    · exact le_min hb (Nat.le_add_right _ _)
    · exact le_max_left _ _
    · exact min_le_left _ _
    · exact min_le_left _ _
    · exact min_le_left _ _
    · exact max_le ha hka

/-- C8 counterexample: two impacts at the same point, a photon first and
an electron second; the second impact overwrites the central texel's red
channel from 255 down to 100, so accumulation is not monotone there. -/
theorem impact_decreases_center_channel :
    (registerImpact 0 0 ParticleType.photon initialField 128 128).r = 255 ∧
    (registerImpact 0 0 ParticleType.electron
        (registerImpact 0 0 ParticleType.photon initialField) 128 128).r = 100 ∧
    ¬ ((255 : ℕ) ≤ 100) := by
  have hb : 0 ≤ textureCoord 0 ∧ textureCoord 0 < 256 := by
    rw [textureCoord_zero]
    constructor <;> norm_num
  have h1 := registerImpact_center 0 0 ParticleType.photon ⟨255, 238, 88⟩
    initialField rfl hb hb
  have h2 := registerImpact_center 0 0 ParticleType.electron ⟨100, 181, 246⟩
    (registerImpact 0 0 ParticleType.photon initialField) rfl hb hb
  rw [textureCoord_zero] at h1 h2
  exact ⟨by rw [h1], by rw [h2], by norm_num⟩

/-- Witness for C8 amended at the texel `(0, 0)` (off-center for an
impact at the origin) on the freshly initialized field. -/
theorem register_impact_monotone_off_center_witness :
    ((initialField 0 0).r ≤ (registerImpact 0 0 ParticleType.photon initialField 0 0).r ∧
      (initialField 0 0).g ≤ (registerImpact 0 0 ParticleType.photon initialField 0 0).g ∧
      (initialField 0 0).b ≤ (registerImpact 0 0 ParticleType.photon initialField 0 0).b ∧
      (initialField 0 0).a ≤ (registerImpact 0 0 ParticleType.photon initialField 0 0).a) ∧
    ((registerImpact 0 0 ParticleType.photon initialField 0 0).r ≤ 255 ∧
      (registerImpact 0 0 ParticleType.photon initialField 0 0).g ≤ 255 ∧
      (registerImpact 0 0 ParticleType.photon initialField 0 0).b ≤ 255 ∧
      (registerImpact 0 0 ParticleType.photon initialField 0 0).a ≤ 255) ∧
    ((0:ℤ) ≤ 0 → (0:ℤ) < 256 → (0:ℤ) ≤ 0 → (0:ℤ) < 256 →
      resetScreen initialField 0 0 = ⟨0, 0, 0, 0⟩) :=
  register_impact_monotone_off_center 0 0 ParticleType.photon initialField 0 0
    (by exact ⟨Nat.zero_le 255, Nat.zero_le 255, Nat.zero_le 255, Nat.zero_le 255⟩)
    (by
      intro h
      rw [textureCoord_zero] at h
      exact absurd h.1 (by decide))

end DoubleSlit
